import Mathlib

/-!
Shallow embedding of the Biogenesis evolution-stage simulation core:
the Zustand game store (`src/store/gameStore.ts`), the dev phase-skip
handler and stage-to-phase mapping (`src/App.tsx`), the ocean-phase
evolution factor (`src/components/FaseOceano.tsx`), and the stage-gated
species population tables (`src/components/LifeSpawner.tsx`,
`src/components/OceanFlora.tsx`).

JavaScript numbers are modelled as rationals (ℚ); the runtime stage
strings (`'AminoAcids' | 'RNA' | 'Protocell' | 'Life'` in the store type,
plus `'Pangea'`/`'Extinction'` written into the same field by `App.tsx`)
are modelled as a six-constructor enumeration.
-/

namespace Biogenesis

/-- The runtime stage vocabulary: the four store stages plus the two
land stages that `App.tsx` writes into the same field. -/
inductive EvolutionStage where
  | AminoAcids
  | RNA
  | Protocell
  | Life
  | Pangea
  | Extinction
deriving DecidableEq, Repr, Fintype

/-- The three user parameter names accepted by `setParameter`. -/
inductive ParamName where
  | temperature
  | energy
  | turbulence
deriving DecidableEq, Repr, Fintype

/-- The `parameters` record of the game store. -/
structure Parameters where
  temperature : ℚ
  energy : ℚ
  turbulence : ℚ
deriving DecidableEq, Repr

/-- The mutable game-store state: stage, per-stage progress (0..100) and
stability (0..100), plus the user parameters. -/
structure GameState where
  parameters : Parameters
  stage : EvolutionStage
  progress : ℚ
  stability : ℚ
deriving DecidableEq, Repr

/-- Initial store state: `parameters: { temperature: 0.5, energy: 0.2,
turbulence: 0.3 }, stage: 'AminoAcids', progress: 0, stability: 100`. -/
def initialState : GameState :=
  { parameters := { temperature := 0.5, energy := 0.2, turbulence := 0.3 }
    stage := .AminoAcids
    progress := 0
    stability := 100 }

/-- `setParameter(param, value)`: stores the value into the named field,
leaving the rest of the state untouched (no clamping in the source). -/
def setParameter (p : ParamName) (v : ℚ) (s : GameState) : GameState :=
  match p with
  | .temperature => { s with parameters := { s.parameters with temperature := v } }
  | .energy => { s with parameters := { s.parameters with energy := v } }
  | .turbulence => { s with parameters := { s.parameters with turbulence := v } }

/-- Read one parameter field by name. -/
def readParam (p : ParamName) (ps : Parameters) : ℚ :=
  match p with
  | .temperature => ps.temperature
  | .energy => ps.energy
  | .turbulence => ps.turbulence

/-- The per-stage goldilocks targets `(targetTemp, targetEnergy)` from
`updateSimulation`: defaults `(0.5, 0.5)`, overridden for the first three
stages. -/
def stageTargets (stage : EvolutionStage) : ℚ × ℚ :=
  match stage with
  | .AminoAcids => (0.8, 0.8)
  | .RNA => (0.5, 0.5)
  | .Protocell => (0.3, 0.2)
  | _ => (0.5, 0.5)

/-- `conditionScore = 1.0 - ((tempDist + energyDist) / 2)` where the
distances are absolute deviations from the stage targets. -/
def conditionScore (s : GameState) : ℚ :=
  1 - ((|s.parameters.temperature - (stageTargets s.stage).1|
        + |s.parameters.energy - (stageTargets s.stage).2|) / 2)

/-- The stability update of `updateSimulation`:
`Math.min(100, Math.max(0, stability + (score > 0.8 ? 5 : -5) * delta
- turbulence * 2 * delta))`. -/
def newStability (delta : ℚ) (s : GameState) : ℚ :=
  min 100 (max 0
    (s.stability + (if conditionScore s > 0.8 then 5 else -5) * delta
      - s.parameters.turbulence * 2 * delta))

/-- The progress update of `updateSimulation`: `progress + delta * 5` when
`newStability > 50 && conditionScore > 0.7`, else unchanged. -/
def newProgress (delta : ℚ) (s : GameState) : ℚ :=
  if newStability delta s > 50 ∧ conditionScore s > 0.7 then
    s.progress + delta * 5
  else
    s.progress

/-- The successor in the fixed stage order used by `updateSimulation`:
`AminoAcids → RNA → Protocell → Life`, all other stages map to themselves
(the `nextStage` local variable starts out equal to `stage`). -/
def nextStage (stage : EvolutionStage) : EvolutionStage :=
  match stage with
  | .AminoAcids => .RNA
  | .RNA => .Protocell
  | .Protocell => .Life
  | s => s

/-- `updateSimulation(delta)`: update stability and progress, then either
transition to the next stage (resetting `progress = 0, stability = 50`) when
`newProgress >= 100` and a successor exists, or store the clamped progress. -/
def updateSimulation (delta : ℚ) (s : GameState) : GameState :=
  let ns := newStability delta s
  let np := newProgress delta s
  if np ≥ 100 then
    if nextStage s.stage ≠ s.stage then
      { s with stage := nextStage s.stage, progress := 0, stability := 50 }
    else
      { s with progress := min 100 np, stability := ns }
  else
    { s with progress := min 100 np, stability := ns }

/-- Store events between renders: a simulation tick or a parameter write. -/
inductive Event where
  | tick (delta : ℚ)
  | setParam (p : ParamName) (v : ℚ)

/-- Apply one store event. -/
def stepEvent (e : Event) (s : GameState) : GameState :=
  match e with
  | .tick delta => updateSimulation delta s
  | .setParam p v => setParameter p v s

/-- Run a list of store events in order. -/
def runEvents (l : List Event) (s : GameState) : GameState :=
  l.foldl (fun acc e => stepEvent e acc) s

/-- An event has a non-negative delta when it is a tick. -/
def nonnegDelta (e : Event) : Prop :=
  match e with
  | .tick delta => 0 ≤ delta
  | .setParam _ _ => True

/-- The position of the claim's six-stage total order
`AminoAcids < RNA < Protocell < Life < Pangea < Extinction`. -/
def stageRank (stage : EvolutionStage) : ℕ :=
  match stage with
  | .AminoAcids => 0
  | .RNA => 1
  | .Protocell => 2
  | .Life => 3
  | .Pangea => 4
  | .Extinction => 5

/-! ### `App.tsx`: stage-to-phase mapping and the dev skip handler -/

/-- `stageToFase`: ocean stages map to visual phase 1, land stages to 2. -/
def stageToFase (stage : EvolutionStage) : ℕ :=
  match stage with
  | .AminoAcids | .RNA | .Protocell | .Life => 1
  | .Pangea | .Extinction => 2

/-- The `App` component state relevant to stage changes: the current visual
phase (`faseAtual`) together with the game store. -/
structure AppState where
  faseAtual : ℕ
  game : GameState
deriving DecidableEq, Repr

/-- The `useEffect` in `App.tsx`: when `faseAtual >= 1` and the stage's
phase differs from `faseAtual`, update `faseAtual`. -/
def syncFase (a : AppState) : AppState :=
  if a.faseAtual ≥ 1 ∧ stageToFase a.game.stage ≠ a.faseAtual then
    { a with faseAtual := stageToFase a.game.stage }
  else
    a

/-- `handleSkipPhase` from `App.tsx`: the dev skip button. From phase 0 it
jumps to the ocean with a fresh store; from phase 1 it jumps to Pangea; from
phase 2 while at Pangea it jumps to Extinction; otherwise it wraps around and
restarts from scratch at AminoAcids. -/
def handleSkipPhase (a : AppState) : AppState :=
  if a.faseAtual = 0 then
    { faseAtual := 1
      game := { a.game with stage := .AminoAcids, progress := 0, stability := 100 } }
  else if a.faseAtual = 1 then
    { a with game := { a.game with stage := .Pangea, progress := 0 } }
  else if a.faseAtual = 2 ∧ a.game.stage = .Pangea then
    { a with game := { a.game with stage := .Extinction, progress := 0 } }
  else
    { faseAtual := 0
      game := { a.game with stage := .AminoAcids, progress := 0, stability := 100 } }

/-! ### `FaseOceano.tsx`: the ocean-phase evolution factor -/

/-- `STAGE_ORDER.indexOf(stage)` for the ocean order
`['AminoAcids', 'RNA', 'Protocell', 'Life']`; stages not in the array give
`-1`, as `Array.prototype.indexOf` does. -/
def oceanOrderIndex (stage : EvolutionStage) : ℤ :=
  match stage with
  | .AminoAcids => 0
  | .RNA => 1
  | .Protocell => 2
  | .Life => 3
  | _ => -1

/-- `evolutionFactor(stage, progress) = (idx + Math.min(progress, 100) / 100)
/ STAGE_ORDER.length` with `STAGE_ORDER.length = 4`. -/
def evolutionFactor (stage : EvolutionStage) (progress : ℚ) : ℚ :=
  ((oceanOrderIndex stage : ℚ) + min progress 100 / 100) / 4

/-! ### `LifeSpawner.tsx` / `OceanFlora.tsx`: stage-gated species tables -/

/-- `atLeast(current, target)` as written in both `LifeSpawner.tsx` and
`OceanFlora.tsx`: `order.indexOf(current) >= order.indexOf(target)` over the
four-element ocean order. -/
def oceanAtLeast (current target : EvolutionStage) : Bool :=
  oceanOrderIndex target ≤ oceanOrderIndex current

/-- The species spawned by `LifeSpawner.tsx` (fish, by model path) and the
flora decorations of `OceanFlora.tsx` (by model path). -/
inductive Species where
  | lowPolyFish
  | clownFish
  | rainbowFish
  | angelfish
  | seaweed
  | seaweed2
  | seaweedAsset
  | neonSeaweed
  | coralVerzuring
  | coralPlastic
  | coralVervuiling
  | coralVisnet
  | kelp
deriving DecidableEq, Repr, Fintype

/-- Whether a species is rendered at a given stage: the disjunction of the
JSX guards under which at least one swarm/patch of that species appears. -/
def speciesActive (sp : Species) (stage : EvolutionStage) : Bool :=
  match sp with
  | .lowPolyFish => oceanAtLeast stage .RNA || stage == .Life
  | .clownFish => oceanAtLeast stage .Protocell || stage == .Life
  | .rainbowFish => oceanAtLeast stage .Protocell || stage == .Life
  | .angelfish => stage == .Life
  | .seaweed => oceanAtLeast stage .AminoAcids || oceanAtLeast stage .RNA || stage == .Life
  | .seaweed2 => oceanAtLeast stage .AminoAcids || oceanAtLeast stage .RNA
  | .seaweedAsset => oceanAtLeast stage .RNA
  | .neonSeaweed => oceanAtLeast stage .Protocell
  | .coralVerzuring => oceanAtLeast stage .Protocell
  | .coralPlastic => stage == .Life
  | .coralVervuiling => stage == .Life
  | .coralVisnet => stage == .Life
  | .kelp => stage == .Life

/-! ### Helper lemmas -/

/-- Running no events is the identity. -/
theorem runEvents_nil (s : GameState) : runEvents [] s = s := rfl

/-- Running a cons of events steps once, then runs the tail. -/
theorem runEvents_cons (e : Event) (l : List Event) (s : GameState) :
    runEvents (e :: l) s = runEvents l (stepEvent e s) := rfl

/-- Running an appended event list runs the two halves in order. -/
theorem runEvents_append (l₁ l₂ : List Event) (s : GameState) :
    runEvents (l₁ ++ l₂) s = runEvents l₂ (runEvents l₁ s) :=
  List.foldl_append _ _ l₁ l₂

/-- `updateSimulation` written as a single case split: the transition branch
fires exactly when the updated progress reaches 100 and a successor stage
exists; otherwise the clamped progress and the new stability are stored. -/
theorem updateSimulation_eq (delta : ℚ) (s : GameState) :
    updateSimulation delta s =
      if 100 ≤ newProgress delta s ∧ nextStage s.stage ≠ s.stage then
        { s with stage := nextStage s.stage, progress := 0, stability := 50 }
      else
        { s with progress := min 100 (newProgress delta s),
                 stability := newStability delta s } := by
  unfold updateSimulation
  by_cases h1 : 100 ≤ newProgress delta s <;>
    by_cases h2 : nextStage s.stage ≠ s.stage <;>
      simp [h1, h2]

/-- The stability update always lands in `[0, 100]`. -/
theorem newStability_bounds (delta : ℚ) (s : GameState) :
    0 ≤ newStability delta s ∧ newStability delta s ≤ 100 := by
  unfold newStability
  exact ⟨le_min (by norm_num) (le_max_left 0 _), min_le_left _ _⟩

/-- After any tick, stability lies in `[0, 100]` (the transition branch sets
it to 50, the other branch clamps). -/
theorem updateSimulation_stability_bounds (delta : ℚ) (s : GameState) :
    0 ≤ (updateSimulation delta s).stability ∧
      (updateSimulation delta s).stability ≤ 100 := by
  rw [updateSimulation_eq]
  split
  · norm_num
  · simpa using newStability_bounds delta s

/-- After any tick, progress is at most 100. -/
theorem updateSimulation_progress_le (delta : ℚ) (s : GameState) :
    (updateSimulation delta s).progress ≤ 100 := by
  rw [updateSimulation_eq]
  split
  · norm_num
  · exact min_le_left (100 : ℚ) (newProgress delta s)

/-- The progress update never decreases progress when the delta is
non-negative. -/
theorem le_newProgress (delta : ℚ) (s : GameState) (h : 0 ≤ delta) :
    s.progress ≤ newProgress delta s := by
  unfold newProgress
  split
  · nlinarith
  · exact le_refl _

/-- `setParameter` only touches the parameter record. -/
theorem setParameter_preserves (p : ParamName) (v : ℚ) (s : GameState) :
    (setParameter p v s).stage = s.stage ∧
      (setParameter p v s).progress = s.progress ∧
      (setParameter p v s).stability = s.stability := by
  cases p <;> exact ⟨rfl, rfl, rfl⟩

/-- The stage successor never decreases the six-stage rank. -/
theorem stageRank_le_nextStage (st : EvolutionStage) :
    stageRank st ≤ stageRank (nextStage st) := by
  cases st <;> decide

/-- A tick never decreases the six-stage rank. -/
theorem stageRank_le_updateSimulation (delta : ℚ) (s : GameState) :
    stageRank s.stage ≤ stageRank (updateSimulation delta s).stage := by
  rw [updateSimulation_eq]
  split
  · simpa using stageRank_le_nextStage s.stage
  · simp

/-- No store event decreases the six-stage rank. -/
theorem stageRank_le_stepEvent (e : Event) (s : GameState) :
    stageRank s.stage ≤ stageRank (stepEvent e s).stage := by
  cases e with
  | tick delta => exact stageRank_le_updateSimulation delta s
  | setParam p v =>
      rw [stepEvent, (setParameter_preserves p v s).1]

/-- No sequence of store events decreases the six-stage rank. -/
theorem stageRank_le_runEvents (l : List Event) (s : GameState) :
    stageRank s.stage ≤ stageRank (runEvents l s).stage := by
  induction l generalizing s with
  | nil => exact le_refl _
  | cons e l ih =>
      rw [runEvents_cons]
      exact le_trans (stageRank_le_stepEvent e s) (ih (stepEvent e s))

/-- The stage lies in the four-stage ocean order. -/
def IsOceanStage (st : EvolutionStage) : Prop :=
  st = .AminoAcids ∨ st = .RNA ∨ st = .Protocell ∨ st = .Life

/-- The stage successor keeps ocean stages in the ocean order. -/
theorem isOcean_nextStage (st : EvolutionStage) (h : IsOceanStage st) :
    IsOceanStage (nextStage st) := by
  rcases h with h | h | h | h <;> subst h <;> simp [IsOceanStage, nextStage]

/-- A tick keeps ocean stages in the ocean order. -/
theorem isOcean_updateSimulation (delta : ℚ) (s : GameState)
    (h : IsOceanStage s.stage) :
    IsOceanStage (updateSimulation delta s).stage := by
  rw [updateSimulation_eq]
  split
  · simpa using isOcean_nextStage s.stage h
  · exact h

/-- Any store event keeps ocean stages in the ocean order. -/
theorem isOcean_stepEvent (e : Event) (s : GameState) (h : IsOceanStage s.stage) :
    IsOceanStage (stepEvent e s).stage := by
  cases e with
  | tick delta => exact isOcean_updateSimulation delta s h
  | setParam p v => rw [stepEvent, (setParameter_preserves p v s).1]; exact h

/-- Any run of store events keeps ocean stages in the ocean order. -/
theorem isOcean_runEvents (l : List Event) (s : GameState) (h : IsOceanStage s.stage) :
    IsOceanStage (runEvents l s).stage := by
  induction l generalizing s with
  | nil => exact h
  | cons e l ih =>
      rw [runEvents_cons]
      exact ih (stepEvent e s) (isOcean_stepEvent e s h)

/-- The evolution factor is monotone in the capped progress. -/
theorem evolutionFactor_mono (st : EvolutionStage) {p q : ℚ}
    (h : min p 100 ≤ min q 100) :
    evolutionFactor st p ≤ evolutionFactor st q := by
  unfold evolutionFactor
  have h4 : (0 : ℚ) < 4 := by norm_num
  rw [div_le_div_iff_of_pos_right h4]
  have h100 : min p 100 / 100 ≤ min q 100 / 100 := by
    apply div_le_div_of_nonneg_right h ?_ |>.trans (le_refl _)
    norm_num
  linarith

/-- On a genuine transition, the ocean index advances by one. -/
theorem oceanOrderIndex_nextStage (st : EvolutionStage) (h : IsOceanStage st)
    (hne : nextStage st ≠ st) :
    oceanOrderIndex (nextStage st) = oceanOrderIndex st + 1 := by
  rcases h with h | h | h | h <;> subst h
  · rfl
  · rfl
  · rfl
  · exact absurd rfl hne

/-- A single tick with non-negative delta never decreases the ocean-phase
evolution factor, including across a stage transition. -/
theorem factor_tick_mono (delta : ℚ) (s : GameState)
    (hst : IsOceanStage s.stage) (hd : 0 ≤ delta) :
    evolutionFactor s.stage s.progress ≤
      evolutionFactor (updateSimulation delta s).stage
        (updateSimulation delta s).progress := by
  rw [updateSimulation_eq]
  split
  next h =>
    show evolutionFactor s.stage s.progress ≤
      evolutionFactor (nextStage s.stage) 0
    unfold evolutionFactor
    rw [oceanOrderIndex_nextStage s.stage hst h.2]
    have hdiv : min s.progress 100 / 100 ≤ 1 := by
      rw [div_le_one (by norm_num)]
      exact min_le_right _ _
    have h0 : min (0 : ℚ) 100 = 0 := by norm_num
    rw [h0]
    push_cast
    linarith
  next h =>
    show evolutionFactor s.stage s.progress ≤
      evolutionFactor s.stage (min 100 (newProgress delta s))
    apply evolutionFactor_mono
    rw [min_eq_left (min_le_left (100 : ℚ) (newProgress delta s))]
    calc min s.progress 100 = min 100 s.progress := min_comm _ _
      _ ≤ min 100 (newProgress delta s) :=
          min_le_min (le_refl _) (le_newProgress delta s hd)

/-! ### Concrete scenario states -/

/-- Scenario 3 of the spec: AminoAcids at progress 98, stability 100, under
perfect goldilocks conditions and zero turbulence. -/
def transitionState : GameState :=
  { parameters := { temperature := 0.8, energy := 0.8, turbulence := 0 }
    stage := .AminoAcids
    progress := 98
    stability := 100 }

/-- AminoAcids at progress 0 under perfect conditions: both progress gates
hold and no transition is near. -/
def goodState : GameState :=
  { parameters := { temperature := 0.8, energy := 0.8, turbulence := 0 }
    stage := .AminoAcids
    progress := 0
    stability := 100 }

/-- The terminal ocean stage at full progress. -/
def lifeState : GameState :=
  { parameters := { temperature := 0.5, energy := 0.2, turbulence := 0.3 }
    stage := .Life
    progress := 100
    stability := 80 }

/-- The game store with stage RNA (as after the first transition). -/
def rnaState : GameState :=
  { initialState with stage := .RNA }

/-- The `App` in the ocean phase with the store at stage RNA. -/
def rnaAppState : AppState :=
  { faseAtual := 1, game := rnaState }

/-! ### Claims -/

/-- C1 counterexample: on the transition tick from AminoAcids at progress 98
under perfect conditions with delta 1, the stored stability is the reset
value 50, while the claimed clamp formula (which `newStability` transcribes
verbatim) gives 100 — so the post-tick stability does not equal the formula. -/
theorem C1_counterexample :
    transitionState.stage = EvolutionStage.AminoAcids ∧
    newStability 1 transitionState = 100 ∧
    (updateSimulation 1 transitionState).stability = 50 ∧
    (updateSimulation 1 transitionState).stability ≠ newStability 1 transitionState := by
  refine ⟨rfl, ?_, ?_, ?_⟩ <;>
    norm_num +decide [updateSimulation, newStability, newProgress, conditionScore,
      stageTargets, transitionState, nextStage]

/-- C1 (amended): in stages AminoAcids, RNA and Protocell, the post-tick
stability equals clamp(stability + (conditionScore > 0.8 ? +5 : -5) * delta
- turbulence * 2 * delta, 0, 100) — i.e. `newStability` — on every tick that
does not trigger a stage transition; on a transition tick (updated progress
at least 100) stability is instead reset to 50. -/
theorem C1_stability_update (s : GameState) (delta : ℚ)
    (hst : s.stage = .AminoAcids ∨ s.stage = .RNA ∨ s.stage = .Protocell) :
    (newProgress delta s < 100 →
      (updateSimulation delta s).stability = newStability delta s) ∧
    (100 ≤ newProgress delta s → (updateSimulation delta s).stability = 50) := by
  have hnext : nextStage s.stage ≠ s.stage := by
    rcases hst with h | h | h <;> rw [h] <;> decide
  constructor
  · intro h
    rw [updateSimulation_eq, if_neg (fun hc => absurd hc.1 (not_le.mpr h))]
  · intro h
    rw [updateSimulation_eq, if_pos ⟨h, hnext⟩]

/-- C1 witness: the amended theorem applied at the initial state (no
transition; stability follows the clamp formula) and at the scenario-3 state
(transition; stability resets to 50). -/
theorem C1_witness :
    (updateSimulation 1 initialState).stability = newStability 1 initialState ∧
    (updateSimulation 1 transitionState).stability = 50 :=
  ⟨(C1_stability_update initialState 1 (Or.inl rfl)).1 (by
      norm_num +decide [newProgress, newStability, conditionScore, stageTargets,
        initialState, abs_of_nonneg, abs_of_nonpos]),
   (C1_stability_update transitionState 1 (Or.inl rfl)).2 (by
      norm_num +decide [newProgress, newStability, conditionScore, stageTargets,
        transitionState])⟩

/-- C2 counterexample: from AminoAcids at progress 98 under perfect
conditions with delta 1, both progress gates hold, yet the post-tick progress
is 0 (the transition reset), not the claimed `progress + 5 * delta = 103`. -/
theorem C2_counterexample :
    50 < newStability 1 transitionState ∧
    (0.7 : ℚ) < conditionScore transitionState ∧
    (updateSimulation 1 transitionState).progress = 0 ∧
    transitionState.progress + 1 * 5 = 103 := by
  refine ⟨?_, ?_, ?_, ?_⟩ <;>
    norm_num +decide [updateSimulation, newStability, newProgress, conditionScore,
      stageTargets, transitionState, nextStage]

/-- C2 (amended): in stages AminoAcids, RNA and Protocell, a tick increases
progress by exactly `5 * delta` when the post-update stability exceeds 50,
`conditionScore > 0.7`, and the incremented progress stays below 100 (at 100
the transition resets it to 0 instead); when the gates fail and progress is
below 100, progress is unchanged. -/
theorem C2_progress_update (s : GameState) (delta : ℚ)
    (_hst : s.stage = .AminoAcids ∨ s.stage = .RNA ∨ s.stage = .Protocell) :
    (50 < newStability delta s → (0.7 : ℚ) < conditionScore s →
      s.progress + delta * 5 < 100 →
      (updateSimulation delta s).progress = s.progress + delta * 5) ∧
    (¬(50 < newStability delta s ∧ (0.7 : ℚ) < conditionScore s) →
      s.progress < 100 →
      (updateSimulation delta s).progress = s.progress) := by
  constructor
  · intro hs hc hlt
    have hnp : newProgress delta s = s.progress + delta * 5 := by
      unfold newProgress
      rw [if_pos ⟨hs, hc⟩]
    rw [updateSimulation_eq,
      if_neg (fun hcon => absurd hcon.1 (by rw [hnp]; exact not_le.mpr hlt))]
    show min 100 (newProgress delta s) = s.progress + delta * 5
    rw [hnp, min_eq_right (le_of_lt hlt)]
  · intro hgate hlt
    have hnp : newProgress delta s = s.progress := by
      unfold newProgress
      rw [if_neg hgate]
    rw [updateSimulation_eq,
      if_neg (fun hcon => absurd hcon.1 (by rw [hnp]; exact not_le.mpr hlt))]
    show min 100 (newProgress delta s) = s.progress
    rw [hnp, min_eq_right (le_of_lt hlt)]

/-- C2 witness: the amended theorem applied where both gates hold far from
100 (progress grows by exactly 5) and at the initial state, whose condition
score 0.55 fails the gate (progress unchanged). -/
theorem C2_witness :
    (updateSimulation 1 goodState).progress = goodState.progress + 1 * 5 ∧
    (updateSimulation 1 initialState).progress = initialState.progress :=
  ⟨(C2_progress_update goodState 1 (Or.inl rfl)).1
      (by norm_num +decide [newStability, conditionScore, stageTargets, goodState])
      (by norm_num +decide [conditionScore, stageTargets, goodState])
      (by norm_num [goodState]),
   (C2_progress_update initialState 1 (Or.inl rfl)).2
      (by norm_num +decide [newStability, conditionScore, stageTargets, initialState,
        abs_of_nonneg, abs_of_nonpos])
      (by norm_num [initialState])⟩

/-- C3: whenever the updated progress reaches 100 in stage AminoAcids, RNA or
Protocell, the tick advances the stage to its successor in the fixed order and
in the same tick resets progress to 0 and stability to 50; at stage Life the
tick leaves the stage at Life (absorbing for `updateSimulation`). -/
theorem C3_stage_transition (s : GameState) (delta : ℚ) :
    ((s.stage = .AminoAcids ∨ s.stage = .RNA ∨ s.stage = .Protocell) →
      100 ≤ newProgress delta s →
      updateSimulation delta s =
        { s with stage := nextStage s.stage, progress := 0, stability := 50 }) ∧
    (s.stage = .Life → (updateSimulation delta s).stage = .Life) := by
  constructor
  · intro hst h
    have hnext : nextStage s.stage ≠ s.stage := by
      rcases hst with hh | hh | hh <;> rw [hh] <;> decide
    rw [updateSimulation_eq, if_pos ⟨h, hnext⟩]
  · intro hlife
    rw [updateSimulation_eq]
    split
    next hcon => exact absurd (by rw [hlife]; rfl) hcon.2
    next _ => exact hlife

/-- C3 witness: scenario 3 (progress 98, delta 1, conditions satisfied) ends
at stage RNA with progress 0 and stability 50, and a tick at stage Life keeps
the stage at Life. -/
theorem C3_witness :
    updateSimulation 1 transitionState =
      { transitionState with stage := nextStage transitionState.stage,
                             progress := 0, stability := 50 } ∧
    (updateSimulation 1 lifeState).stage = EvolutionStage.Life :=
  ⟨(C3_stage_transition transitionState 1).1 (Or.inl rfl) (by
      norm_num +decide [newProgress, newStability, conditionScore, stageTargets,
        transitionState]),
   (C3_stage_transition lifeState 1).2 rfl⟩

/-- C4 counterexample: stage-changing events include the dev skip button.
Starting in the ocean phase with the store at stage RNA, three presses of
`handleSkipPhase` (with the `useEffect` phase sync in between) take the stage
through Pangea and Extinction and back to AminoAcids — so once at RNA the
stage can become AminoAcids again. -/
theorem C4_counterexample :
    rnaAppState.game.stage = EvolutionStage.RNA ∧
    (handleSkipPhase (handleSkipPhase (syncFase (handleSkipPhase rnaAppState)))).game.stage =
      EvolutionStage.AminoAcids := by
  refine ⟨rfl, ?_⟩
  norm_num +decide [handleSkipPhase, syncFase, stageToFase, rnaAppState, rnaState,
    initialState]

/-- C4 (amended): under `updateSimulation` ticks and `setParameter` events
alone, the stage only moves forward along the fixed total order AminoAcids <
RNA < Protocell < Life < Pangea < Extinction; in particular once the stage is
RNA it is never AminoAcids again. The dev skip handler `handleSkipPhase` in
`App.tsx` is excluded: its wrap-around branch resets the stage to
AminoAcids. -/
theorem C4_stage_forward_only (l : List Event) (s : GameState) :
    stageRank s.stage ≤ stageRank (runEvents l s).stage ∧
    (s.stage = .RNA → (runEvents l s).stage ≠ .AminoAcids) := by
  refine ⟨stageRank_le_runEvents l s, ?_⟩
  intro h hc
  have hle := stageRank_le_runEvents l s
  rw [h, hc] at hle
  exact absurd hle (by decide)

/-- C4 witness: one tick from stage RNA does not reach AminoAcids. -/
theorem C4_witness :
    (runEvents [Event.tick 1] rnaState).stage ≠ EvolutionStage.AminoAcids :=
  (C4_stage_forward_only [Event.tick 1] rnaState).2 rfl

/-- C5: from any state whose stability lies in [0, 100], after any finite
sequence of ticks and parameter writes (any deltas, any parameter values) the
stability still lies in [0, 100]. -/
theorem C5_stability_in_range (s : GameState) (l : List Event)
    (h0 : 0 ≤ s.stability) (h1 : s.stability ≤ 100) :
    0 ≤ (runEvents l s).stability ∧ (runEvents l s).stability ≤ 100 := by
  induction l generalizing s with
  | nil => exact ⟨h0, h1⟩
  | cons e l ih =>
      rw [runEvents_cons]
      cases e with
      | tick delta =>
          exact ih (updateSimulation delta s)
            (updateSimulation_stability_bounds delta s).1
            (updateSimulation_stability_bounds delta s).2
      | setParam p v =>
          have hs := (setParameter_preserves p v s).2.2
          exact ih (setParameter p v s) (by rw [hs]; exact h0) (by rw [hs]; exact h1)

/-- C5 witness: two ticks from the initial state keep stability in [0, 100]. -/
theorem C5_witness :
    0 ≤ (runEvents [Event.tick 1, Event.tick 1] initialState).stability ∧
      (runEvents [Event.tick 1, Event.tick 1] initialState).stability ≤ 100 :=
  C5_stability_in_range initialState [Event.tick 1, Event.tick 1]
    (by norm_num [initialState]) (by norm_num [initialState])

/-- C6: when the current stage is terminal for `updateSimulation`
(`nextStage stage = stage`, i.e. stage Life and the land stages), the reset
branch is skipped and the stored progress is the updated progress clamped to
100; and for every state and every delta, post-tick progress never exceeds
100. -/
theorem C6_terminal_progress_clamped (s : GameState) (delta : ℚ) :
    (nextStage s.stage = s.stage →
      updateSimulation delta s =
        { s with progress := min 100 (newProgress delta s),
                 stability := newStability delta s }) ∧
    (updateSimulation delta s).progress ≤ 100 := by
  constructor
  · intro h
    rw [updateSimulation_eq, if_neg (fun hc => hc.2 h)]
  · exact updateSimulation_progress_le delta s

/-- C6 witness: a tick at stage Life with progress 100 skips the reset branch
and stores clamped progress, which does not exceed 100. -/
theorem C6_witness :
    updateSimulation 1 lifeState =
      { lifeState with progress := min 100 (newProgress 1 lifeState),
                       stability := newStability 1 lifeState } ∧
    (updateSimulation 1 lifeState).progress ≤ 100 :=
  ⟨(C6_terminal_progress_clamped lifeState 1).1 rfl,
   (C6_terminal_progress_clamped lifeState 1).2⟩

/-- C7: for every stage of the ocean order and progress in [0, 100], the
ocean-phase evolution factor equals `(indexOf(stage) + min(progress,100)/100)
/ 4` (with the min discharged) and lies in [0, 1]; moreover
`evolutionFactor Protocell 50 = 0.625` and `evolutionFactor Life 100 = 1`. -/
theorem C7_evolution_factor_value (st : EvolutionStage) (p : ℚ)
    (hst : IsOceanStage st) (h0 : 0 ≤ p) (h1 : p ≤ 100) :
    evolutionFactor st p = ((oceanOrderIndex st : ℚ) + p / 100) / 4 ∧
    0 ≤ evolutionFactor st p ∧ evolutionFactor st p ≤ 1 ∧
    evolutionFactor .Protocell 50 = 5 / 8 ∧
    evolutionFactor .Life 100 = 1 := by
  have hmin : min p 100 = p := min_eq_left h1
  have hp0 : 0 ≤ p / 100 := div_nonneg h0 (by norm_num)
  have hp1 : p / 100 ≤ 1 := by
    rw [div_le_one (by norm_num)]
    exact h1
  refine ⟨?_, ?_, ?_, ?_, ?_⟩
  · unfold evolutionFactor
    rw [hmin]
  · unfold evolutionFactor
    rw [hmin]
    rcases hst with h | h | h | h <;> subst h <;>
      norm_num [oceanOrderIndex] <;> linarith
  · unfold evolutionFactor
    rw [hmin]
    rcases hst with h | h | h | h <;> subst h <;>
      norm_num [oceanOrderIndex] <;> linarith
  · norm_num [evolutionFactor, oceanOrderIndex]
  · norm_num [evolutionFactor, oceanOrderIndex]

/-- C7 witness: the theorem evaluated at stage Protocell with progress 50. -/
theorem C7_witness :
    evolutionFactor EvolutionStage.Protocell 50 =
        ((oceanOrderIndex EvolutionStage.Protocell : ℚ) + 50 / 100) / 4 ∧
    0 ≤ evolutionFactor EvolutionStage.Protocell 50 ∧
    evolutionFactor EvolutionStage.Protocell 50 ≤ 1 ∧
    evolutionFactor EvolutionStage.Protocell 50 = 5 / 8 ∧
    evolutionFactor EvolutionStage.Life 100 = 1 :=
  C7_evolution_factor_value .Protocell 50 (Or.inr (Or.inr (Or.inl rfl)))
    (by norm_num) (by norm_num)

/-- C8: along any trace of store events from the initial state, appending one
more event with non-negative tick delta never decreases the ocean-phase
evolution factor of (stage, progress) — including across stage transitions
where progress resets to 0. -/
theorem C8_evolution_factor_monotone (l : List Event) (e : Event)
    (he : nonnegDelta e) :
    evolutionFactor (runEvents l initialState).stage
        (runEvents l initialState).progress ≤
      evolutionFactor (runEvents (l ++ [e]) initialState).stage
        (runEvents (l ++ [e]) initialState).progress := by
  rw [runEvents_append]
  have hocean : IsOceanStage (runEvents l initialState).stage :=
    isOcean_runEvents l initialState (Or.inl rfl)
  show evolutionFactor _ _ ≤
    evolutionFactor (stepEvent e (runEvents l initialState)).stage
      (stepEvent e (runEvents l initialState)).progress
  cases e with
  | tick delta => exact factor_tick_mono delta _ hocean he
  | setParam p v =>
      rw [stepEvent, (setParameter_preserves p v _).1,
        (setParameter_preserves p v _).2.1]

/-- C8 witness: appending one unit tick to the empty trace does not decrease
the evolution factor. -/
theorem C8_witness :
    evolutionFactor (runEvents [] initialState).stage
        (runEvents [] initialState).progress ≤
      evolutionFactor (runEvents ([] ++ [Event.tick 1]) initialState).stage
        (runEvents ([] ++ [Event.tick 1]) initialState).progress :=
  C8_evolution_factor_monotone [] (Event.tick 1) (by norm_num [nonnegDelta])

/-- C9 counterexample: `setParameter('temperature', 1.5)` stores 1.5 — a value
outside [0, 1] — unchanged, so the claimed silent clamp into [0, 1] does not
happen. -/
theorem C9_counterexample :
    (setParameter .temperature (3 / 2) initialState).parameters.temperature = 3 / 2 ∧
    ¬((3 : ℚ) / 2 ≤ 1) := by
  constructor
  · rfl
  · norm_num

/-- C9 (amended): for every parameter name and every value, `setParameter`
stores the given value unchanged (no clamping, even outside [0, 1]), leaves
the other two parameters and the stage/progress/stability untouched, and is a
total function — it never throws or propagates an error. -/
theorem C9_setParameter_stores_raw (p q : ParamName) (v : ℚ) (s : GameState) :
    readParam p (setParameter p v s).parameters = v ∧
    (q ≠ p → readParam q (setParameter p v s).parameters = readParam q s.parameters) ∧
    (setParameter p v s).stage = s.stage ∧
    (setParameter p v s).progress = s.progress ∧
    (setParameter p v s).stability = s.stability := by
  cases p <;> cases q <;> simp [readParam, setParameter]

/-- C9 witness: writing temperature 1.5 stores exactly 1.5 and leaves the
energy parameter unchanged. -/
theorem C9_witness :
    readParam .temperature (setParameter .temperature (3 / 2) initialState).parameters
        = 3 / 2 ∧
      readParam .energy (setParameter .temperature (3 / 2) initialState).parameters =
        readParam .energy initialState.parameters :=
  ⟨(C9_setParameter_stores_raw .temperature .energy (3 / 2) initialState).1,
   (C9_setParameter_stores_raw .temperature .energy (3 / 2) initialState).2.1
     (by decide)⟩

/-- C10 counterexample: the low-poly fish is active at RNA but inactive at
Pangea, although RNA ≤ Pangea in the six-stage order — the species tables use
the four-stage ocean order, in which Pangea has `indexOf = -1` and counts as
"not yet reached". -/
theorem C10_counterexample :
    stageRank .RNA ≤ stageRank .Pangea ∧
    speciesActive .lowPolyFish .RNA = true ∧
    speciesActive .lowPolyFish .Pangea = false := by
  decide

/-- C10 (amended): restricted to the four-stage ocean order (the stages with
a non-negative ocean index), the active-species function is monotone
accretive: a species active at a stage stays active at every later ocean
stage. At Pangea/Extinction the ocean tables treat the stage as not reached
and every ocean species is inactive. -/
theorem C10_species_monotone_ocean :
    ∀ (sp : Species) (s1 s2 : EvolutionStage),
      0 ≤ oceanOrderIndex s1 → 0 ≤ oceanOrderIndex s2 →
      stageRank s1 ≤ stageRank s2 →
      speciesActive sp s1 = true → speciesActive sp s2 = true := by
  decide

/-- C10 witness: the low-poly fish, active at RNA, is still active at Life. -/
theorem C10_witness : speciesActive Species.lowPolyFish EvolutionStage.Life = true :=
  C10_species_monotone_ocean .lowPolyFish .RNA .Life (by decide) (by decide)
    (by decide) (by decide)

end Biogenesis
